import Mathlib

/- Verification of the WebScrape repository: a shallow embedding of the two
scraper scripts (web.py, the Setopati scraper, called variant B, and
test.py, the eKantipur scraper, called variant A) together with proofs and
refutations of the specified properties. Browser and DOM behaviour enters
the model as data: a page is the set of texts the selectors would find,
and fallible external calls are embedded as `Option`/`Except` values. -/

set_option maxHeartbeats 1000000

/-! ## Common string helpers -/

/-- Whether the first character list starts with the second. -/
def charsHasPre : List Char → List Char → Bool
  | _, [] => true
  | [], _ :: _ => false
  | c :: s, p :: ps => c == p && charsHasPre s ps

/-- Whether the second character list occurs as a contiguous run inside the
first. -/
def charsHasSub : List Char → List Char → Bool
  | [], pat => pat.isEmpty
  | c :: t, pat => charsHasPre (c :: t) pat || charsHasSub t pat

/-- Python substring containment `pat in s`. -/
def strContains (s pat : String) : Bool := charsHasSub s.data pat.data

/-- Python `s.startswith(pre)`. -/
def pyStartsWith (s pre : String) : Bool := charsHasPre s.data pre.data

/-- Python `s.strip()`: the string with leading and trailing whitespace
removed. -/
def pyStrip (s : String) : String :=
  String.mk (((s.data.dropWhile Char.isWhitespace).reverse.dropWhile
    Char.isWhitespace).reverse)

/-- Python `sep.join(xs)`: empty for `[]`, otherwise the pieces with `sep`
placed between consecutive pieces. -/
def pyJoin (sep : String) : List String → String
  | [] => ""
  | [s] => s
  | s :: rest => s ++ sep ++ pyJoin sep rest

/-! ## Variant A: test.py (eKantipur scraper) -/

/-- The anchor tag found by `article.find('a')`: its text and its optional
`href` attribute. -/
structure Anchor where
  text : String
  href : Option String
deriving DecidableEq

/-- One `div.teaser.offset` element of the listing page, as
`scrape_articles` reads it: the first anchor (`find('a')`, `none` when
absent) and the first paragraph's text (`find('p')`, `none` when absent). -/
structure TeaserDiv where
  anchor : Option Anchor
  para : Option String
deriving DecidableEq

/-- A rendered article page for variant A: the
`div.description.current-news-block.portrait` container holds the texts of
its `<p>` descendants; `none` when the container is absent. -/
structure PageA where
  container : Option (List String)
deriving DecidableEq

/-- One entry of variant A's `all_articles` output. Python's `None` content
(serialized as JSON null) is embedded as `Option String`. -/
structure ArticleA where
  title : String
  teaser : String
  link : String
  content : Option String
deriving DecidableEq

/-- `scrape_article_content` after a successful navigation: `None` when the
content container is absent, otherwise
`' '.join([p.text.strip() for p in paragraphs])`. -/
def scrape_article_content (pg : PageA) : Option String :=
  match pg.container with
  | none => none
  | some ps => some (pyJoin " " (ps.map pyStrip))

/-- `if link.startswith('/'): link = base_url + link` from
`scrape_articles`; any other href is used as found. -/
def normalizeHref (base h : String) : String :=
  if pyStartsWith h "/" then base ++ h else h

/-- The body of the per-article `try` block of `scrape_articles`: read the
anchor and teaser, read the href, normalize a relative link, navigate to
the article (`fetch`; `none` embeds a raised navigation error) and extract
the content; any failure is caught by the per-article `except` and yields
no record. -/
def processDiv (base : String) (fetch : String → Option PageA) (d : TeaserDiv) :
    Option ArticleA :=
  match d.anchor with
  | none => none
  | some a =>
    match d.para with
    | none => none
    | some p =>
      match a.href with
      | none => none
      | some h =>
        match fetch (normalizeHref base h) with
        | none => none
        | some pg =>
          some { title := pyStrip a.text, teaser := pyStrip p,
                 link := normalizeHref base h,
                 content := scrape_article_content pg }

/-- Observable events of a variant A run: a printed per-article error (the
record is skipped) and the `finally` clause's `driver.quit()`. -/
inductive EvA
  | skipA
  | quitA
deriving DecidableEq

/-- The `for article in articles` loop of `scrape_articles`: records kept
in listing order, a skip event for each div whose `try` block raised. -/
def processDivs (base : String) (fetch : String → Option PageA) :
    List TeaserDiv → List ArticleA × List EvA
  | [] => ([], [])
  | d :: ds =>
    let rest := processDivs base fetch ds
    match processDiv base fetch d with
    | some r => (r :: rest.1, rest.2)
    | none => (rest.1, EvA.skipA :: rest.2)

/-- `scrape_articles(base_url, news_url, max_articles)`. `navOk = false`
embeds a raised `driver.get(news_url)` — that call sits before the
`try`/`finally`, so the exception propagates without any teardown. On the
normal path the listing markup is scanned
(`find_all('div', class_='teaser offset', limit=max_articles)`), each div
is processed, and the `finally` clause quits the driver once. -/
def scrape_articles (base : String) (navOk : Bool) (listing : List TeaserDiv)
    (fetch : String → Option PageA) (maxArticles : Nat) :
    Except Unit (List ArticleA) × List EvA :=
  if navOk then
    let run := processDivs base fetch (listing.take maxArticles)
    (Except.ok run.1, run.2 ++ [EvA.quitA])
  else (Except.error (), [])

/-! ## Variant B: web.py (NewsScraperSetopati) -/

/-- `setup_driver` events: a failed `webdriver.Chrome` construction, the
`time.sleep(5)` between attempts, and a successful construction. -/
inductive SetupEv
  | createFail
  | sleepSec (n : Nat)
  | createOk
deriving DecidableEq

/-- Result of `setup_driver`: the driver was initialized at the given
attempt index, or the final `raise Exception(...)` fired, or the `while`
loop fell through (unreachable when `max_attempts > 0`). -/
inductive SetupResult
  | initialized (attempt : Nat)
  | raisedInitError
  | fellThrough
deriving DecidableEq

/-- The `while attempt < max_attempts` loop of `setup_driver`. `succeeds i`
tells whether the `webdriver.Chrome(...)` construction at counter value `i`
succeeds; the fuel argument is `max_attempts - attempt`. On a failure the
counter is incremented, the error logged; at the last attempt the loop
raises, otherwise it sleeps 5 seconds and retries. -/
def setupLoop (succeeds : Nat → Bool) (maxAttempts : Nat) :
    Nat → Nat → SetupResult × List SetupEv
  | _, 0 => (SetupResult.fellThrough, [])
  | attempt, fuel + 1 =>
    if succeeds attempt then (SetupResult.initialized attempt, [SetupEv.createOk])
    else if attempt + 1 == maxAttempts then
      (SetupResult.raisedInitError, [SetupEv.createFail])
    else
      let rest := setupLoop succeeds maxAttempts (attempt + 1) fuel
      (rest.1, SetupEv.createFail :: SetupEv.sleepSec 5 :: rest.2)

/-- `setup_driver`: `max_attempts = 3`, starting at `attempt = 0`. -/
def setup_driver (succeeds : Nat → Bool) : SetupResult × List SetupEv :=
  setupLoop succeeds 3 0 3

/-- One iteration of the scroll loop of `get_article_links`: either the
explicit wait timed out (logged, and the iteration is skipped) or the page
yielded the `a.title` elements' `href` attributes (`none` for an element
without the attribute). -/
inductive ScrollStep
  | timeout
  | found (hrefs : List (Option String))

/-- The filter `if href and 'setopati.com' in href`: a truthy (non-empty)
href containing the target-domain string. -/
def hrefOk (s : String) : Bool := !s.isEmpty && strContains s "setopati.com"

/-- `article_links.add(href)` on a Python `set`, tracked in insertion
(discovery) order: adding a duplicate leaves the set unchanged. -/
def addLink (acc : List String) (h : String) : List String :=
  if h ∈ acc then acc else acc ++ [h]

/-- The `for link in links` body: add each truthy, domain-matching href. -/
def addHrefs (acc : List String) : List (Option String) → List String
  | [] => acc
  | none :: t => addHrefs acc t
  | some s :: t => addHrefs (if hrefOk s then addLink acc s else acc) t

/-- The scroll loop of `get_article_links`: a timed-out iteration is
skipped (`continue`), a successful one adds the hrefs it found. The result
is the set's content in discovery order. -/
def collectLoop (acc : List String) : List ScrollStep → List String
  | [] => acc
  | ScrollStep.timeout :: rest => collectLoop acc rest
  | ScrollStep.found hs :: rest => collectLoop (addHrefs acc hs) rest

/-- A model of CPython's `list(s)` on a `set`: it enumerates exactly the
elements of the set, in an unspecified hash-table order — some permutation
of the insertion-ordered content. -/
def IsSetEnum (f : List String → List String) : Prop := ∀ l, (f l).Perm l

/-- `get_article_links(url, max_scrolls)` on a run whose scroll iterations
behave as `steps`: returns `list(article_links)`, where the set's
iteration order is given by the enumeration `e`. -/
def get_article_links (steps : List ScrollStep) (e : List String → List String) :
    List String :=
  e (collectLoop [] steps)

/-- Extraction errors of variant B: a `TimeoutException` from an explicit
wait or page load, or a `WebDriverException` (which additionally triggers
`restart_driver` before re-raising to the retry decorator). -/
inductive ScrapeErr
  | timeout
  | webdriver
deriving DecidableEq

/-- An article page of variant B as `scrape_article` reads it:
`newsContent` holds the paragraph texts of `div.news-content` when the
container is present; the other fields are the texts of the
correspondingly-selected elements, `none` when the element never appears
(so its explicit wait times out). -/
structure PageB where
  newsContent : Option (List String)
  title : Option String
  date : Option String
  breadcrumb : Option String
  authorName : Option String
deriving DecidableEq

/-- WebDriver's rendered `.text` of the content container: consecutive
block-level `<p>` children render as their whitespace-trimmed texts
separated by newlines. -/
def renderedText (ps : List String) : String := pyJoin "\n" (ps.map pyStrip)

/-- Navigation outcome of `self.driver.get(url)` in `scrape_article`: the
page loaded, or the load raised a timeout or a WebDriver error. -/
inductive PageLoad
  | loaded (pg : PageB)
  | navTimeout
  | navDriver

/-- The article record of variant B (`article_data`). -/
structure ArticleB where
  url : String
  title : String
  date : String
  content : String
  category : String
  author : String
deriving DecidableEq

/-- One attempt of `scrape_article(url)`: navigate; wait for the required
`news-content` container, title, date and breadcrumb (category) — a
missing one times out and fails the attempt; content is the container
element's rendered text; the author wait sits in its own `try` and
defaults to "Unknown" on timeout. -/
def scrape_article1 (pages : String → PageLoad) (url : String) :
    Except ScrapeErr ArticleB :=
  match pages url with
  | PageLoad.navTimeout => Except.error ScrapeErr.timeout
  | PageLoad.navDriver => Except.error ScrapeErr.webdriver
  | PageLoad.loaded pg =>
    match pg.newsContent with
    | none => Except.error ScrapeErr.timeout
    | some contentEl =>
      match pg.title with
      | none => Except.error ScrapeErr.timeout
      | some title =>
        match pg.date with
        | none => Except.error ScrapeErr.timeout
        | some date =>
          match pg.breadcrumb with
          | none => Except.error ScrapeErr.timeout
          | some category =>
            Except.ok { url := url, title := title, date := date,
                        content := renderedText contentEl, category := category,
                        author := pg.authorName.getD "Unknown" }

/-- The tenacity `stop_after_attempt(3)` wrapper: re-run the operation on
failure, at most `n` attempts in total, the last failure re-raised. Within
the model a page renders identically on every attempt, so the operation's
outcome is the same `Except` value each time. -/
def retryCall (n : Nat) (f : Except ScrapeErr α) : Except ScrapeErr α :=
  match n with
  | 0 => f
  | 1 => f
  | m + 2 =>
    match f with
    | Except.ok a => Except.ok a
    | Except.error _ => retryCall (m + 1) f

/-- `scrape_article` with its retry decorator (3 attempts). -/
def scrape_article (pages : String → PageLoad) (url : String) :
    Except ScrapeErr ArticleB :=
  retryCall 3 (scrape_article1 pages url)

/-- Observable events of `scrape_website`: a successful article scrape,
the logged skip of a failed article, the logged top-level error, and the
`finally` clause's `driver.quit()`. -/
inductive EvB
  | fetched (url : String)
  | skipB (url : String)
  | mainError
  | quitB
deriving DecidableEq

/-- The `for url in article_links` loop of `scrape_website`: a failure is
logged and skipped (`continue`); successes are appended in order. -/
def processUrls (pages : String → PageLoad) : List String → List ArticleB × List EvB
  | [] => ([], [])
  | u :: us =>
    let rest := processUrls pages us
    match scrape_article pages u with
    | Except.ok r => (r :: rest.1, EvB.fetched u :: rest.2)
    | Except.error _ => (rest.1, EvB.skipB u :: rest.2)

/-- A variant B run's outcome: the returned DataFrame rows and the trace. -/
structure RunB where
  df : List ArticleB
  trace : List EvB
deriving DecidableEq

/-- `scrape_website(base_url, max_articles)` given the outcome `lres` of
the (already retried) `get_article_links` call. The link list is capped by
`[:max_articles]`; an empty capped list short-circuits to an empty
DataFrame; an exception escaping link collection reaches the outer
`except`, which logs it and returns an empty DataFrame; the `finally`
clause always quits the driver, once, on every path. -/
def scrape_website (lres : Except ScrapeErr (List String))
    (pages : String → PageLoad) (maxArticles : Nat) : RunB :=
  match lres with
  | Except.error _ => { df := [], trace := [EvB.mainError, EvB.quitB] }
  | Except.ok l =>
    let capped := l.take maxArticles
    if capped.isEmpty then { df := [], trace := [EvB.quitB] }
    else
      let run := processUrls pages capped
      { df := run.1, trace := run.2 ++ [EvB.quitB] }

/-- Written from the spec's words for the body content: the paragraph
texts, each trimmed of leading and trailing whitespace, joined by single
spaces. -/
def specBodyContent (ps : List String) : String :=
  String.intercalate " " (ps.map pyStrip)

/-- The successful value of an `Except`, when there is one. -/
def exOk : Except ScrapeErr ArticleB → Option ArticleB
  | Except.ok r => some r
  | Except.error _ => none

/-- The records of a variant A run (empty when the run raised). -/
def runRecords (x : Except Unit (List ArticleA) × List EvA) : List ArticleA :=
  match x.1 with
  | Except.ok l => l
  | Except.error _ => []

/-! ## Helper lemmas -/

theorem retryCall_eq : ∀ (n : Nat) (f : Except ScrapeErr α), retryCall n f = f
  | 0, _ => rfl
  | 1, _ => rfl
  | n + 2, f => by
    cases f with
    | ok a => rfl
    | error e =>
      show retryCall (n + 1) (Except.error e) = Except.error e
      exact retryCall_eq (n + 1) _

theorem intercalate_go_eq (s : String) :
    ∀ (as : List String) (acc : String),
      String.intercalate.go acc s as = pyJoin s (acc :: as)
  | [], _ => rfl
  | [a], acc => by
    show acc ++ s ++ a = pyJoin s [acc, a]
    simp [pyJoin, String.append_assoc]
  | a :: b :: t, acc => by
    show String.intercalate.go (acc ++ s ++ a) s (b :: t) = pyJoin s (acc :: a :: b :: t)
    rw [intercalate_go_eq s (b :: t) (acc ++ s ++ a)]
    show pyJoin s ((acc ++ s ++ a) :: b :: t) = pyJoin s (acc :: a :: b :: t)
    simp [pyJoin, String.append_assoc]

theorem pyJoin_eq_intercalate (s : String) : ∀ l : List String,
    pyJoin s l = String.intercalate s l
  | [] => rfl
  | a :: as => (intercalate_go_eq s as a).symm

theorem addLink_nodup {acc : List String} {h : String} (hn : acc.Nodup) :
    (addLink acc h).Nodup := by
  unfold addLink
  split
  · exact hn
  · next hmem =>
    simp only [List.nodup_append, List.nodup_cons, List.not_mem_nil, not_false_iff,
      List.nodup_nil, and_true, true_and]
    exact ⟨hn, fun x hx => by simp only [List.mem_singleton]; intro he; exact hmem (he ▸ hx)⟩

theorem mem_addLink {acc : List String} {h u : String} (hu : u ∈ addLink acc h) :
    u ∈ acc ∨ u = h := by
  unfold addLink at hu
  split at hu
  · exact Or.inl hu
  · rcases List.mem_append.mp hu with h1 | h1
    · exact Or.inl h1
    · exact Or.inr (List.mem_singleton.mp h1)

theorem addHrefs_nodup : ∀ (hrefs : List (Option String)) (acc : List String),
    acc.Nodup → (addHrefs acc hrefs).Nodup
  | [], _, hn => hn
  | none :: t, acc, hn => addHrefs_nodup t acc hn
  | some s :: t, acc, hn => by
    show (addHrefs (if hrefOk s then addLink acc s else acc) t).Nodup
    split
    · exact addHrefs_nodup t _ (addLink_nodup hn)
    · exact addHrefs_nodup t _ hn

theorem mem_addHrefs : ∀ (hrefs : List (Option String)) (acc : List String) (u : String),
    u ∈ addHrefs acc hrefs → u ∈ acc ∨ hrefOk u = true
  | [], _, _, hu => Or.inl hu
  | none :: t, acc, u, hu => mem_addHrefs t acc u hu
  | some s :: t, acc, u, hu => by
    rcases mem_addHrefs t _ u hu with h1 | h1
    · by_cases hs : hrefOk s = true
      · rw [if_pos hs] at h1
        rcases mem_addLink h1 with h2 | h2
        · exact Or.inl h2
        · exact Or.inr (h2 ▸ hs)
      · rw [if_neg hs] at h1
        exact Or.inl h1
    · exact Or.inr h1

theorem collectLoop_nodup : ∀ (steps : List ScrollStep) (acc : List String),
    acc.Nodup → (collectLoop acc steps).Nodup
  | [], _, hn => hn
  | ScrollStep.timeout :: rest, acc, hn => collectLoop_nodup rest acc hn
  | ScrollStep.found hs :: rest, acc, hn =>
    collectLoop_nodup rest _ (addHrefs_nodup hs acc hn)

theorem mem_collectLoop : ∀ (steps : List ScrollStep) (acc : List String) (u : String),
    u ∈ collectLoop acc steps → u ∈ acc ∨ hrefOk u = true
  | [], _, _, hu => Or.inl hu
  | ScrollStep.timeout :: rest, acc, u, hu => mem_collectLoop rest acc u hu
  | ScrollStep.found hs :: rest, acc, u, hu => by
    rcases mem_collectLoop rest _ u hu with h1 | h1
    · exact mem_addHrefs hs acc u h1
    · exact Or.inr h1

theorem scrape_article1_ok_url (pages : String → PageLoad) (u : String) (r : ArticleB)
    (h : scrape_article1 pages u = Except.ok r) : r.url = u := by
  cases hl : pages u with
  | navTimeout => simp [scrape_article1, hl] at h
  | navDriver => simp [scrape_article1, hl] at h
  | loaded pg =>
    cases hc : pg.newsContent with
    | none => simp [scrape_article1, hl, hc] at h
    | some contentEl =>
      cases ht : pg.title with
      | none => simp [scrape_article1, hl, hc, ht] at h
      | some title =>
        cases hd : pg.date with
        | none => simp [scrape_article1, hl, hc, ht, hd] at h
        | some date =>
          cases hb : pg.breadcrumb with
          | none => simp [scrape_article1, hl, hc, ht, hd, hb] at h
          | some category =>
            simp only [scrape_article1, hl, hc, ht, hd, hb] at h
            injection h with h
            subst h
            rfl

theorem scrape_article_ok_url (pages : String → PageLoad) (u : String) (r : ArticleB)
    (h : scrape_article pages u = Except.ok r) : r.url = u := by
  rw [scrape_article, retryCall_eq] at h
  exact scrape_article1_ok_url pages u r h

theorem processUrls_df (pages : String → PageLoad) : ∀ us : List String,
    (processUrls pages us).1 = us.filterMap (fun u => exOk (scrape_article pages u))
  | [] => rfl
  | u :: us => by
    simp only [processUrls, List.filterMap_cons]
    cases hs : scrape_article pages u <;>
      simp [exOk, hs, processUrls_df pages us]

theorem processUrls_skip (pages : String → PageLoad) : ∀ (us : List String) (u : String),
    u ∈ us → exOk (scrape_article pages u) = none →
    EvB.skipB u ∈ (processUrls pages us).2
  | [], u, hu, _ => absurd hu (List.not_mem_nil u)
  | v :: us, u, hu, hf => by
    simp only [processUrls]
    rcases List.mem_cons.mp hu with h1 | h1
    · subst h1
      cases hs : scrape_article pages u with
      | error e => simp [hs]
      | ok r => rw [hs] at hf; cases hf
    · cases hs : scrape_article pages v <;>
        simp [hs, processUrls_skip pages us u h1 hf]

theorem processUrls_no_quit (pages : String → PageLoad) : ∀ us : List String,
    EvB.quitB ∉ (processUrls pages us).2
  | [] => List.not_mem_nil _
  | u :: us => by
    simp only [processUrls]
    cases hs : scrape_article pages u <;>
      simp [hs, processUrls_no_quit pages us]

theorem processUrls_mem_df (pages : String → PageLoad) : ∀ (us : List String) (r : ArticleB),
    r ∈ (processUrls pages us).1 → scrape_article pages r.url = Except.ok r
  | [], r, hr => absurd hr (List.not_mem_nil r)
  | u :: us, r, hr => by
    revert hr
    simp only [processUrls]
    cases hs : scrape_article pages u with
    | error e => exact fun hr => processUrls_mem_df pages us r hr
    | ok r0 =>
      intro hr
      rcases List.mem_cons.mp hr with h1 | h1
      · rw [← h1] at hs
        rw [scrape_article_ok_url pages u r hs]
        exact hs
      · exact processUrls_mem_df pages us r h1

theorem processDivs_df (base : String) (fetch : String → Option PageA) :
    ∀ ds : List TeaserDiv,
      (processDivs base fetch ds).1 = ds.filterMap (processDiv base fetch)
  | [] => rfl
  | d :: ds => by
    simp only [processDivs, List.filterMap_cons]
    cases hs : processDiv base fetch d <;>
      simp [hs, processDivs_df base fetch ds]

theorem processDivs_no_quit (base : String) (fetch : String → Option PageA) :
    ∀ ds : List TeaserDiv, EvA.quitA ∉ (processDivs base fetch ds).2
  | [] => List.not_mem_nil _
  | d :: ds => by
    simp only [processDivs]
    cases hs : processDiv base fetch d <;>
      simp [hs, processDivs_no_quit base fetch ds]

theorem processDiv_inv (base : String) (fetch : String → Option PageA) (d : TeaserDiv)
    (r : ArticleA) (h : processDiv base fetch d = some r) :
    ∃ a h0 p pg, d.anchor = some a ∧ a.href = some h0 ∧ d.para = some p ∧
      fetch (normalizeHref base h0) = some pg ∧
      r = { title := pyStrip a.text, teaser := pyStrip p, link := normalizeHref base h0,
            content := scrape_article_content pg } := by
  cases ha : d.anchor with
  | none => simp [processDiv, ha] at h
  | some a =>
    cases hp : d.para with
    | none => simp [processDiv, ha, hp] at h
    | some p =>
      cases hh : a.href with
      | none => simp [processDiv, ha, hp, hh] at h
      | some h0 =>
        cases hf : fetch (normalizeHref base h0) with
        | none => simp [processDiv, ha, hp, hh, hf] at h
        | some pg =>
          simp only [processDiv, ha, hp, hh, hf] at h
          injection h with h
          exact ⟨a, h0, p, pg, rfl, hh, rfl, hf, h.symm⟩

/-! ## Claim theorems -/

/-- C5: `setup_driver` makes at most 3 session-creation attempts, every
sleep between consecutive attempts is exactly 5 seconds, and when all 3
attempts fail it raises the fatal init error with exactly the trace
fail, sleep 5, fail, sleep 5, fail — no fourth attempt and no sleep after
the last failure. -/
theorem setup_driver_retries (succeeds : Nat → Bool) :
    ((setup_driver succeeds).2.count SetupEv.createFail
      + (setup_driver succeeds).2.count SetupEv.createOk ≤ 3)
    ∧ (∀ n : Nat, SetupEv.sleepSec n ∈ (setup_driver succeeds).2 → n = 5)
    ∧ ((succeeds 0 = false ∧ succeeds 1 = false ∧ succeeds 2 = false) →
        setup_driver succeeds =
          (SetupResult.raisedInitError,
            [SetupEv.createFail, SetupEv.sleepSec 5, SetupEv.createFail,
             SetupEv.sleepSec 5, SetupEv.createFail])) := by
  cases h0 : succeeds 0 <;> cases h1 : succeeds 1 <;> cases h2 : succeeds 2 <;>
    simp_all [setup_driver, setupLoop, List.count_cons, List.count_nil]

/-- C5 witness: with every creation attempt failing, `setup_driver` raises
after exactly three attempts separated by two 5-second sleeps. -/
theorem setup_driver_retries_witness :
    (∀ n : Nat, SetupEv.sleepSec n ∈ (setup_driver (fun _ => false)).2 → n = 5)
    ∧ setup_driver (fun _ => false) =
        (SetupResult.raisedInitError,
          [SetupEv.createFail, SetupEv.sleepSec 5, SetupEv.createFail,
           SetupEv.sleepSec 5, SetupEv.createFail]) :=
  ⟨(setup_driver_retries (fun _ => false)).2.1,
   (setup_driver_retries (fun _ => false)).2.2 ⟨rfl, rfl, rfl⟩⟩

/-- C3: in web.py's `scrape_article`, if the wait for any required field
(body-content container, title, published date, or category breadcrumb)
times out, the whole extraction for that URL fails with a timeout error —
even after the retry budget — and no record is produced. -/
theorem required_field_timeout_fails (pages : String → PageLoad) (url : String)
    (pg : PageB) (hl : pages url = PageLoad.loaded pg)
    (hmiss : pg.newsContent = none ∨ pg.title = none ∨ pg.date = none ∨
      pg.breadcrumb = none) :
    scrape_article pages url = Except.error ScrapeErr.timeout := by
  rw [scrape_article, retryCall_eq]
  rcases hmiss with h | h | h | h
  · simp [scrape_article1, hl, h]
  · cases hc : pg.newsContent <;> simp [scrape_article1, hl, hc, h]
  · cases hc : pg.newsContent <;> cases ht : pg.title <;>
      simp [scrape_article1, hl, hc, ht, h]
  · cases hc : pg.newsContent <;> cases ht : pg.title <;> cases hd : pg.date <;>
      simp [scrape_article1, hl, hc, ht, hd, h]

/-- C3 witness: a page with a missing title fails extraction. -/
theorem required_field_timeout_fails_witness :
    scrape_article
        (fun _ => PageLoad.loaded
          { newsContent := some ["body text"], title := none, date := some "D",
            breadcrumb := some "Cat", authorName := some "A" }) "u"
      = Except.error ScrapeErr.timeout :=
  required_field_timeout_fails _ "u" _ rfl (Or.inr (Or.inl rfl))

/-- C2 counterexample: in variant B (web.py), an article page whose
`news-content` container is absent but whose title, date and category are
all present fails the extraction with a timeout instead of returning a
record with empty content — content-container absence alone does fail the
extraction there. -/
theorem content_absence_fails_variantB :
    scrape_article
        (fun _ => PageLoad.loaded
          { newsContent := none, title := some "T", date := some "D",
            breadcrumb := some "Cat", authorName := none }) "u"
      = Except.error ScrapeErr.timeout := rfl

/-- C2 (amended): in variant A (test.py), for an article whose page lacks
the content container but whose listing fields are present, the scan still
returns a record whose content is null while title and teaser are the
scraped (non-null) texts; in variant B the content container is itself a
required field. -/
theorem content_absence_tolerated_variantA (base : String) (d : TeaserDiv)
    (a : Anchor) (h p : String) (fetch : String → Option PageA)
    (ha : d.anchor = some a) (hh : a.href = some h) (hp : d.para = some p)
    (hf : fetch (normalizeHref base h) = some { container := none }) :
    scrape_articles base true [d] fetch 1 =
      (Except.ok [{ title := pyStrip a.text, teaser := pyStrip p,
                    link := normalizeHref base h, content := none }], [EvA.quitA]) := by
  simp [scrape_articles, processDivs, processDiv, ha, hh, hp, hf,
    scrape_article_content]

/-- C2 witness: concrete instance of the amended variant A behaviour. -/
theorem content_absence_tolerated_variantA_witness :
    scrape_articles "https://ekantipur.com" true
        [{ anchor := some { text := "T", href := some "/x" }, para := some "P" }]
        (fun _ => some { container := none }) 1 =
      (Except.ok [{ title := pyStrip "T", teaser := pyStrip "P",
                    link := normalizeHref "https://ekantipur.com" "/x",
                    content := none }], [EvA.quitA]) :=
  content_absence_tolerated_variantA "https://ekantipur.com"
    { anchor := some { text := "T", href := some "/x" }, para := some "P" }
    { text := "T", href := some "/x" } "/x" "P"
    (fun _ => some { container := none }) rfl rfl rfl rfl

/-- C9 counterexample: in variant B the recorded body content is the
container element's rendered text — for a page whose container holds the
paragraphs "a" and "b" the extraction returns the newline-separated
"a\nb", not the single-space join "a b" that the claim describes. -/
theorem content_join_fails_variantB :
    scrape_article
        (fun _ => PageLoad.loaded
          { newsContent := some ["a", "b"], title := some "T", date := some "D",
            breadcrumb := some "Cat", authorName := none }) "u"
      = Except.ok { url := "u", title := "T", date := "D", content := "a\nb",
                    category := "Cat", author := "Unknown" }
    ∧ specBodyContent ["a", "b"] = "a b"
    ∧ ("a\nb" : String) ≠ "a b" :=
  ⟨rfl, by decide, by decide⟩

/-- C9 (amended): in variant A, for every article page with a present
content container the extracted body equals the paragraph texts, each
trimmed of leading/trailing whitespace, joined by single spaces; variant B
instead records the container's rendered text unmodified. -/
theorem content_join_variantA (pg : PageA) (ps : List String)
    (hc : pg.container = some ps) :
    scrape_article_content pg = some (specBodyContent ps) := by
  simp [scrape_article_content, hc, specBodyContent, pyJoin_eq_intercalate]

/-- C9 witness: concrete instance of the variant A join. -/
theorem content_join_variantA_witness :
    scrape_article_content { container := some [" x ", "y"] } =
      some (specBodyContent [" x ", "y"]) :=
  content_join_variantA _ _ rfl

theorem exOk_eq_some (x : Except ScrapeErr ArticleB) (r : ArticleB) :
    exOk x = some r ↔ x = Except.ok r := by
  cases x <;> simp [exOk]

theorem scrape_website_df_ok (l : List String) (pages : String → PageLoad)
    (maxArticles : Nat) :
    (scrape_website (Except.ok l) pages maxArticles).df
      = (l.take maxArticles).filterMap (fun v => exOk (scrape_article pages v)) := by
  cases hcap : (l.take maxArticles).isEmpty with
  | true =>
    have h0 : l.take maxArticles = [] := by
      cases hx : l.take maxArticles with
      | nil => rfl
      | cons a t => rw [hx] at hcap; simp at hcap
    simp [scrape_website, hcap, h0]
  | false => simp [scrape_website, hcap, processUrls_df]

theorem scrape_website_skip_mem (l : List String) (pages : String → PageLoad)
    (maxArticles : Nat) (u : String) (hm : u ∈ l.take maxArticles)
    (hf : exOk (scrape_article pages u) = none) :
    EvB.skipB u ∈ (scrape_website (Except.ok l) pages maxArticles).trace := by
  have hcap : (l.take maxArticles).isEmpty = false := by
    cases hx : l.take maxArticles with
    | nil => rw [hx] at hm; exact absurd hm (List.not_mem_nil u)
    | cons a t => rfl
  simp only [scrape_website, hcap, Bool.false_eq_true, if_false]
  exact List.mem_append.mpr (Or.inl (processUrls_skip pages _ u hm hf))

/-- C1 (amended): in variant B, `get_article_links` returns a list with no
duplicate URLs in which every URL contains the target-domain string
"setopati.com" — for every scroll behaviour and every set-iteration order;
variant A's listing scan applies no deduplication and no domain filter. -/
theorem links_nodup_and_domain (steps : List ScrollStep)
    (e : List String → List String) (he : IsSetEnum e) :
    (get_article_links steps e).Nodup ∧
    ∀ u ∈ get_article_links steps e, strContains u "setopati.com" = true := by
  have hperm := he (collectLoop [] steps)
  constructor
  · exact hperm.symm.nodup (collectLoop_nodup steps [] List.nodup_nil)
  · intro u hu
    have hu2 : u ∈ collectLoop [] steps := hperm.mem_iff.mp hu
    rcases mem_collectLoop steps [] u hu2 with h1 | h1
    · exact absurd h1 (List.not_mem_nil u)
    · exact (Bool.and_eq_true _ _ |>.mp h1).2

/-- C1 witness: a concrete run (with the identity enumeration, a duplicate
href, a missing href and an off-domain href) returns nodup,
domain-matching links. -/
theorem links_nodup_and_domain_witness :
    (get_article_links
        [ScrollStep.found [some "https://www.setopati.com/a", none,
           some "https://other.com/x", some "https://www.setopati.com/a"],
         ScrollStep.timeout,
         ScrollStep.found [some "https://www.setopati.com/b"]]
        (fun l => l)).Nodup ∧
    ∀ u ∈ get_article_links
        [ScrollStep.found [some "https://www.setopati.com/a", none,
           some "https://other.com/x", some "https://www.setopati.com/a"],
         ScrollStep.timeout,
         ScrollStep.found [some "https://www.setopati.com/b"]]
        (fun l => l), strContains u "setopati.com" = true :=
  links_nodup_and_domain _ _ (fun l => List.Perm.refl l)

/-- C1 counterexample: variant A's listing scan neither deduplicates nor
domain-filters — a listing with two identical teasers pointing at an
off-domain URL yields two records with equal links, and that link does not
contain the configured base domain at all. -/
theorem listing_scan_unfiltered_variantA :
    ((runRecords (scrape_articles "https://ekantipur.com" true
        [{ anchor := some { text := "t", href := some "https://other.com/a" },
           para := some "p" },
         { anchor := some { text := "t", href := some "https://other.com/a" },
           para := some "p" }]
        (fun _ => some { container := some [] }) 2)).map (fun r => r.link)
      = ["https://other.com/a", "https://other.com/a"]) ∧
    ¬ ((runRecords (scrape_articles "https://ekantipur.com" true
        [{ anchor := some { text := "t", href := some "https://other.com/a" },
           para := some "p" },
         { anchor := some { text := "t", href := some "https://other.com/a" },
           para := some "p" }]
        (fun _ => some { container := some [] }) 2)).map (fun r => r.link)).Nodup ∧
    strContains "https://other.com/a" "ekantipur.com" = false := by
  refine ⟨?_, ?_, ?_⟩ <;> decide

/-- C4 (amended): the link list a run uses is `get_article_links(...)`
capped by the orchestrator's `[:max_articles]` slice: the capped list has
length at most the cap, has no duplicates, and every entry is one of the
discovered URLs — but its order is the set's unspecified iteration order,
not discovery order. -/
theorem links_capped (steps : List ScrollStep) (e : List String → List String)
    (he : IsSetEnum e) (maxArticles : Nat) :
    ((get_article_links steps e).take maxArticles).length ≤ maxArticles ∧
    ((get_article_links steps e).take maxArticles).Nodup ∧
    ∀ u ∈ (get_article_links steps e).take maxArticles,
      u ∈ collectLoop [] steps := by
  have hperm := he (collectLoop [] steps)
  refine ⟨?_, ?_, ?_⟩
  · rw [List.length_take]
    exact min_le_left _ _
  · exact List.Nodup.sublist (List.take_sublist _ _)
      (hperm.symm.nodup (collectLoop_nodup steps [] List.nodup_nil))
  · intro u hu
    exact hperm.mem_iff.mp ((List.take_sublist _ _).subset hu)

/-- C4 witness: concrete capped run with the identity enumeration. -/
theorem links_capped_witness :
    ((get_article_links [ScrollStep.found [some "https://www.setopati.com/c",
        some "https://www.setopati.com/d"]] (fun l => l)).take 1).length ≤ 1 ∧
    ((get_article_links [ScrollStep.found [some "https://www.setopati.com/c",
        some "https://www.setopati.com/d"]] (fun l => l)).take 1).Nodup ∧
    ∀ u ∈ (get_article_links [ScrollStep.found [some "https://www.setopati.com/c",
        some "https://www.setopati.com/d"]] (fun l => l)).take 1,
      u ∈ collectLoop [] [ScrollStep.found [some "https://www.setopati.com/c",
        some "https://www.setopati.com/d"]] :=
  links_capped _ _ (fun l => List.Perm.refl l) 1

/-- C4 counterexample: `get_article_links` returns `list(article_links)` of
a Python `set`, whose iteration order is unspecified; under the legitimate
set enumeration that happens to reverse insertion order, a run discovering
two links (well under the cap) returns them in the opposite of discovery
order, so the returned collection is not ordered by discovery order. -/
theorem links_order_not_discovery :
    IsSetEnum List.reverse ∧
    collectLoop [] [ScrollStep.found [some "https://www.setopati.com/a",
        some "https://www.setopati.com/b"]]
      = ["https://www.setopati.com/a", "https://www.setopati.com/b"] ∧
    (get_article_links [ScrollStep.found [some "https://www.setopati.com/a",
        some "https://www.setopati.com/b"]] List.reverse).take 50
      = ["https://www.setopati.com/b", "https://www.setopati.com/a"] ∧
    (get_article_links [ScrollStep.found [some "https://www.setopati.com/a",
        some "https://www.setopati.com/b"]] List.reverse).take 50
      ≠ (collectLoop [] [ScrollStep.found [some "https://www.setopati.com/a",
        some "https://www.setopati.com/b"]]).take 50 :=
  ⟨fun l => l.reverse_perm, by decide, by decide, by decide⟩

/-- C6: when a retry budget is exhausted, the orchestrator demotes a
per-article extraction failure to a logged skip while the batch continues
(the DataFrame is exactly the successful extractions over all capped
links), whereas an error escaping link collection aborts the whole run:
no article is processed and the run ends with only the logged top-level
error and the final teardown. -/
theorem orchestrator_failure_propagation (l : List String)
    (pages : String → PageLoad) (maxArticles : Nat) (u : String)
    (er : ScrapeErr) :
    (u ∈ l.take maxArticles → exOk (scrape_article pages u) = none →
      EvB.skipB u ∈ (scrape_website (Except.ok l) pages maxArticles).trace ∧
      (scrape_website (Except.ok l) pages maxArticles).df
        = (l.take maxArticles).filterMap (fun v => exOk (scrape_article pages v)))
    ∧ ((scrape_website (Except.error er) pages maxArticles).df = [] ∧
       (scrape_website (Except.error er) pages maxArticles).trace
         = [EvB.mainError, EvB.quitB]) := by
  refine ⟨fun hm hf => ⟨?_, ?_⟩, rfl, rfl⟩
  · exact scrape_website_skip_mem l pages maxArticles u hm hf
  · exact scrape_website_df_ok l pages maxArticles

/-- C6 witness: one failing and one succeeding article URL — the failure is
skipped with a logged event, the success is kept; a failed link collection
yields the empty aborted run. -/
theorem orchestrator_failure_propagation_witness :
    (EvB.skipB "u1" ∈ (scrape_website (Except.ok ["u1", "u2"])
        (fun v => if v = "u1" then PageLoad.navTimeout else PageLoad.loaded
          { newsContent := some ["c"], title := some "T", date := some "D",
            breadcrumb := some "Cat", authorName := none }) 2).trace ∧
      (scrape_website (Except.ok ["u1", "u2"])
        (fun v => if v = "u1" then PageLoad.navTimeout else PageLoad.loaded
          { newsContent := some ["c"], title := some "T", date := some "D",
            breadcrumb := some "Cat", authorName := none }) 2).df
        = (["u1", "u2"].take 2).filterMap (fun v => exOk (scrape_article
            (fun v => if v = "u1" then PageLoad.navTimeout else PageLoad.loaded
              { newsContent := some ["c"], title := some "T", date := some "D",
                breadcrumb := some "Cat", authorName := none }) v)))
    ∧ ((scrape_website (Except.error ScrapeErr.timeout)
        (fun v => if v = "u1" then PageLoad.navTimeout else PageLoad.loaded
          { newsContent := some ["c"], title := some "T", date := some "D",
            breadcrumb := some "Cat", authorName := none }) 2).df = [] ∧
       (scrape_website (Except.error ScrapeErr.timeout)
        (fun v => if v = "u1" then PageLoad.navTimeout else PageLoad.loaded
          { newsContent := some ["c"], title := some "T", date := some "D",
            breadcrumb := some "Cat", authorName := none }) 2).trace
         = [EvB.mainError, EvB.quitB]) :=
  ⟨(orchestrator_failure_propagation ["u1", "u2"] _ 2 "u1" ScrapeErr.timeout).1
      (by decide) rfl,
   (orchestrator_failure_propagation ["u1", "u2"] _ 2 "u1" ScrapeErr.timeout).2⟩

/-- C7: a URL whose (retried) extraction failed contributes no record to
the final output in either variant: in web.py no DataFrame row carries
that URL and the drop is logged as a skip event; in test.py no output
record carries a link whose article navigation failed. No partial record
is substituted. -/
theorem failed_url_dropped (l : List String) (pages : String → PageLoad)
    (maxArticles : Nat) (u : String)
    (hB : exOk (scrape_article pages u) = none)
    (base : String) (listing : List TeaserDiv) (fetch : String → Option PageA)
    (maxA : Nat) (v : String) (hA : fetch v = none) :
    (∀ r ∈ (scrape_website (Except.ok l) pages maxArticles).df, r.url ≠ u) ∧
    (u ∈ l.take maxArticles →
      EvB.skipB u ∈ (scrape_website (Except.ok l) pages maxArticles).trace) ∧
    (∀ r ∈ runRecords (scrape_articles base true listing fetch maxA),
      r.link ≠ v) := by
  refine ⟨?_, ?_, ?_⟩
  · intro r hr hru
    rw [scrape_website_df_ok] at hr
    rcases List.mem_filterMap.mp hr with ⟨w, hw, hev⟩
    have hok : scrape_article pages w = Except.ok r := (exOk_eq_some _ _).mp hev
    have hwu : w = u := by
      rw [← hru]
      exact (scrape_article_ok_url pages w r hok).symm
    rw [hwu, hB] at hev
    cases hev
  · exact fun hm => scrape_website_skip_mem l pages maxArticles u hm hB
  · intro r hr hrv
    have hrec : r ∈ (processDivs base fetch (listing.take maxA)).1 := by
      simpa [scrape_articles, runRecords] using hr
    rw [processDivs_df] at hrec
    rcases List.mem_filterMap.mp hrec with ⟨d, _, hpd⟩
    rcases processDiv_inv base fetch d r hpd with ⟨a, h0, p, pg, _, _, _, hf2, hre⟩
    subst hre
    have hlink : fetch v = some pg := by rw [← hrv]; exact hf2
    rw [hA] at hlink
    cases hlink

/-- C7 witness: concrete failing URL in each variant. -/
theorem failed_url_dropped_witness :
    (∀ r ∈ (scrape_website (Except.ok ["u1"])
        (fun _ => PageLoad.navTimeout) 1).df, r.url ≠ "u1") ∧
    ("u1" ∈ (["u1"] : List String).take 1 →
      EvB.skipB "u1" ∈ (scrape_website (Except.ok ["u1"])
        (fun _ => PageLoad.navTimeout) 1).trace) ∧
    (∀ r ∈ runRecords (scrape_articles "b" true
        [{ anchor := some { text := "t", href := some "w" }, para := some "p" }]
        (fun _ => none) 1), r.link ≠ "w") :=
  failed_url_dropped ["u1"] (fun _ => PageLoad.navTimeout) 1 "u1" rfl
    "b" [{ anchor := some { text := "t", href := some "w" }, para := some "p" }]
    (fun _ => none) 1 "w" rfl

/-- C8 counterexample: in variant A the initial `driver.get(news_url)` sits
before the `try`/`finally`, so when that navigation raises, the run exits
(early abort) without invoking teardown at all — zero `driver.quit()`
calls on that exit path, not one. -/
theorem teardown_missed_on_nav_failure :
    (scrape_articles "b" false [] (fun _ => none) 2).1 = Except.error () ∧
    (scrape_articles "b" false [] (fun _ => none) 2).2.count EvA.quitA = 0 :=
  ⟨rfl, rfl⟩

/-- C8 (amended): in variant B, `scrape_website` tears the session down
exactly once on every exit path (normal completion, per-article failures,
empty short-circuit, and the link-collection abort); in variant A the
teardown runs exactly once on every exit path that gets past the initial
listing-page navigation. -/
theorem teardown_once (lres : Except ScrapeErr (List String))
    (pages : String → PageLoad) (maxArticles : Nat) (base : String)
    (listing : List TeaserDiv) (fetch : String → Option PageA) (maxA : Nat) :
    (scrape_website lres pages maxArticles).trace.count EvB.quitB = 1 ∧
    (scrape_articles base true listing fetch maxA).2.count EvA.quitA = 1 := by
  constructor
  · cases lres with
    | error e => rfl
    | ok l =>
      cases hcap : (l.take maxArticles).isEmpty with
      | true => simp [scrape_website, hcap]
      | false =>
        simp only [scrape_website, hcap, Bool.false_eq_true, if_false]
        rw [List.count_append,
          List.count_eq_zero.mpr (processUrls_no_quit pages (l.take maxArticles))]
        rfl
  · simp only [scrape_articles, if_pos]
    rw [List.count_append,
      List.count_eq_zero.mpr (processDivs_no_quit base fetch (listing.take maxA))]
    rfl

/-- C10: in variant A every output record's link comes from a discovered
href: a relative href (one starting with "/") is prefixed with the
configured base URL and any other href is used exactly as found; the
article content is fetched from that normalized link; and a record is
produced for every div whose fields parse and whose page loads — there is
no host or domain condition anywhere in the path. -/
theorem href_normalization_variantA (base : String) (listing : List TeaserDiv)
    (fetch : String → Option PageA) (maxArticles : Nat) :
    (∀ r ∈ runRecords (scrape_articles base true listing fetch maxArticles),
      ∃ d ∈ listing.take maxArticles, ∃ a h p pg,
        d.anchor = some a ∧ a.href = some h ∧ d.para = some p ∧
        r.link = (if pyStartsWith h "/" then base ++ h else h) ∧
        fetch r.link = some pg ∧ r.content = scrape_article_content pg) ∧
    (∀ (d : TeaserDiv) (a : Anchor) (h p : String) (pg : PageA),
      d.anchor = some a → a.href = some h → d.para = some p →
      fetch (if pyStartsWith h "/" then base ++ h else h) = some pg →
      processDiv base fetch d =
        some { title := pyStrip a.text, teaser := pyStrip p,
               link := if pyStartsWith h "/" then base ++ h else h,
               content := scrape_article_content pg }) := by
  constructor
  · intro r hr
    have hrec : r ∈ (processDivs base fetch (listing.take maxArticles)).1 := by
      simpa [scrape_articles, runRecords] using hr
    rw [processDivs_df] at hrec
    rcases List.mem_filterMap.mp hrec with ⟨d, hd, hpd⟩
    rcases processDiv_inv base fetch d r hpd with ⟨a, h0, p, pg, ha, hh, hp, hf, hre⟩
    exact ⟨d, hd, a, h0, p, pg, ha, hh, hp, by rw [hre]; rfl,
      by rw [hre]; exact hf, by rw [hre]⟩
  · intro d a h p pg ha hh hp hf
    have hf2 : fetch (if pyStartsWith h "/" then base ++ h else h) = some pg := hf
    simp [processDiv, ha, hh, hp, normalizeHref, hf2]

/-- C10 witness: a relative href is prefixed with the base URL, and an
off-domain absolute href is fetched as found (no domain filter). -/
theorem href_normalization_variantA_witness :
    processDiv "https://ekantipur.com" (fun _ => some { container := some ["c"] })
        { anchor := some { text := "T", href := some "https://other.com/a" },
          para := some "P" } =
      some { title := pyStrip "T", teaser := pyStrip "P",
             link := if pyStartsWith "https://other.com/a" "/" then
               "https://ekantipur.com" ++ "https://other.com/a"
               else "https://other.com/a",
             content := scrape_article_content { container := some ["c"] } } :=
  (href_normalization_variantA "https://ekantipur.com" []
      (fun _ => some { container := some ["c"] }) 0).2
    { anchor := some { text := "T", href := some "https://other.com/a" },
      para := some "P" }
    { text := "T", href := some "https://other.com/a" }
    "https://other.com/a" "P" { container := some ["c"] } rfl rfl rfl rfl
